import Mathlib

/-!
Verification of the classification / weighted-overlay fusion engine and the
staged pipeline orchestrator of the Nepal landslide-susceptibility mapping
repository (`constants.py`, `functions.py`, `main.py`).

Cell values are modelled as rationals; a raster array is a function from a
cell index to its value.  The numpy int8 output array of `classify_raster`
is modelled with mathematical integers, together with an explicit wrapping
cast for the one place where an out-of-range value is cast unsafely
(`np.full(shape, nodata, dtype=np.int8)`).
-/

namespace NepalLSM

/-- Truncation of a rational toward zero, as the C cast used by numpy when a
float nodata value is converted to an integer dtype. `Int.div` truncates
toward zero. -/
def ratTrunc (q : ℚ) : Int :=
  Int.tdiv q.num (q.den : Int)

/-- Wrap an integer into the int8 range [-128, 127]. -/
def int8wrap (z : Int) : Int :=
  Int.emod (z + 128) 256 - 128

/-- The value stored by `np.full(shape, q, dtype=np.int8)` for a numeric
fill value `q`: unsafe cast, i.e. truncation toward zero followed by a wrap
modulo 256 (functions.py line 124). -/
def int8cast (q : ℚ) : Int :=
  int8wrap (ratTrunc q)

/-- Cell type of a GDAL band, as far as the claims need it. The
classification output is always created with `gdal.GDT_Int8`
(functions.py line 142). -/
inductive CellType where
  | int8
  | float32
deriving DecidableEq

/-- A single-band raster: cell values, the declared nodata value
(`GetNoDataValue()` may return `None`), and the cell type. -/
structure Raster where
  cells : Nat → ℚ
  nodata : Option ℚ
  ctype : CellType

/-- The nodata value `classify_raster` works with: the declared one, or
-128 when the band declares none (functions.py lines 114-116). -/
def effNodata (r : Raster) : ℚ :=
  r.nodata.getD (-128)

/-- One classification rule `(low, high, value)` from a classification
range tuple (constants.py).  The three constructors are the three branches
of the rule dispatch in functions.py lines 126-132: `low is None`,
`high is None`, and both bounds present. -/
inductive Rule where
  | lowUnbounded (high : ℚ) (classCode : Int)
  | highUnbounded (low : ℚ) (classCode : Int)
  | bounded (low high : ℚ) (classCode : Int)
deriving DecidableEq

/-- The class code of a rule. -/
def Rule.classCode : Rule → Int
  | .lowUnbounded _ c => c
  | .highUnbounded _ c => c
  | .bounded _ _ c => c

/-- Effect of one loop iteration of functions.py lines 126-132 on one cell
holding value `v`, where `acc` is the value the output array currently
holds at that cell.  The unbounded branches exclude the nodata value from
their masks; the bounded branch does not. -/
def applyRule (nd v : ℚ) (acc : Int) (r : Rule) : Int :=
  match r with
  | .lowUnbounded high c => if v < high ∧ v ≠ nd then c else acc
  | .highUnbounded low c => if low ≤ v ∧ v ≠ nd then c else acc
  | .bounded low high c => if low ≤ v ∧ v < high then c else acc

/-- Per-cell result of the non-pass-through branch of `classify_raster`
(functions.py lines 123-133): the output array is filled with the input
nodata value cast to int8, every rule is applied in declared order, and
finally every cell whose input value equals the nodata value is forced to
-128. -/
def classifyCell (rules : List Rule) (nd v : ℚ) : Int :=
  let looped := rules.foldl (applyRule nd v) (int8cast nd)
  if v = nd then -128 else looped

/-- Conversion the raster driver applies when `WriteArray` receives the
pass-through float array for the `GDT_Int8` output band (functions.py
lines 140-148): the value is rounded to the nearest integer and clamped
into the int8 range [-128, 127].  Exact halves follow the round-half-up
convention of `round`; no theorem below depends on the tie direction. -/
def gdalInt8write (q : ℚ) : Int :=
  max (-128) (min 127 (round q))

/-- `classify_raster` (functions.py lines 99-153).  On both branches the
output dataset is created as `GDT_Int8` and its band nodata is set to -128
(lines 140-148).  With a classification range the classified int8 array is
written as is; with `None` the in-memory float array is left unchanged
(lines 134-136) but writing it into the int8 band converts every cell by
`gdalInt8write`. -/
def classify_raster (r : Raster) (spec : Option (List Rule)) : Raster :=
  match spec with
  | some rules =>
      { cells := fun i => ((classifyCell rules (effNodata r) (r.cells i) : Int) : ℚ)
        nodata := some (-128)
        ctype := CellType.int8 }
  | none =>
      { cells := fun i => ((gdalInt8write (r.cells i) : Int) : ℚ)
        nodata := some (-128)
        ctype := CellType.int8 }

/-- Spec-side interval semantics (spec sections 4.1 and 8): an
unbounded-low rule contains `v` when `v < upperBound`, an unbounded-high
rule when `lowerBound <= v`, a bounded rule when
`lowerBound <= v < upperBound`. -/
def specMatches (v : ℚ) : Rule → Bool
  | .lowUnbounded high _ => decide (v < high)
  | .highUnbounded low _ => decide (low ≤ v)
  | .bounded low high _ => decide (low ≤ v ∧ v < high)

/-- Spec-side comparator: the class code of the last rule in declared
order whose interval contains `v`, if any. -/
def specLastMatchingCode (rules : List Rule) (v : ℚ) : Option Int :=
  rules.foldl (fun acc r => if specMatches v r then some r.classCode else acc) none

/-- The slope classification range of constants.py lines 16-20, used as a
concrete sample spec. -/
def slopeRules : List Rule :=
  [Rule.lowUnbounded 15 1, Rule.bounded 15 30 8, Rule.bounded 30 60 10,
   Rule.highUnbounded 60 4]

/-- Sample raster: constant value 35, declared nodata -9999. -/
def r1c : Raster :=
  { cells := fun _ => 35, nodata := some (-9999), ctype := CellType.float32 }

/-- Sample raster: constant value -9999, declared nodata -9999. -/
def r4c : Raster :=
  { cells := fun _ => -9999, nodata := some (-9999), ctype := CellType.float32 }

/-- Sample raster: constant value 5, declared nodata 0. -/
def r6c : Raster :=
  { cells := fun _ => 5, nodata := some 0, ctype := CellType.float32 }

/-- A spec whose single bounded rule does not cover the value 5. -/
def rules6 : List Rule := [Rule.bounded 10 20 1]

/-- Sample raster: constant value 15, no declared nodata. -/
def r9c : Raster :=
  { cells := fun _ => 15, nodata := none, ctype := CellType.float32 }

/-- Sample raster for the pass-through branch: value 5, nodata 0,
float cell type. -/
def r5c : Raster :=
  { cells := fun _ => 5, nodata := some 0, ctype := CellType.float32 }

/-- Sample raster for the pass-through branch with a fractional cell
value 23.7, as on the rainfall pass-through path. -/
def r5f : Raster :=
  { cells := fun _ => 23.7, nodata := some (-9999), ctype := CellType.float32 }

/-- Sample raster with no declared nodata, value 35. -/
def r10c : Raster :=
  { cells := fun _ => 35, nodata := none, ctype := CellType.float32 }

/-- A factor layer of the base susceptibility fusion: the classified
raster cells, the nodata value its band declares, and its weight from
`FINAL_WEIGHTS`. -/
structure Layer where
  cells : Nat → ℚ
  nodata : Option ℚ
  weight : ℚ

/-- The valid mask of one layer at one cell: `array_ds != raster_nodata`
(main.py lines 126 and 141).  When the band declares no nodata value, the
numpy comparison with `None` is elementwise true. -/
def layerValid (l : Layer) (v : ℚ) : Bool :=
  match l.nodata with
  | none => true
  | some nd => decide (v ≠ nd)

/-- The first layer of the fusion loop (main.py lines 113-132): the sum
array is filled with -128 and set to `value * weight` on the cells where
the first layer is valid. -/
def fuseFirst (l : Layer) : Nat → ℚ :=
  fun i => if layerValid l (l.cells i) then l.cells i * l.weight else -128

/-- A subsequent layer of the fusion loop (main.py lines 134-147): it adds
`value * weight` on the cells where that layer itself is valid, leaving
other cells untouched. -/
def fuseStep (acc : Nat → ℚ) (l : Layer) : Nat → ℚ :=
  fun i => if layerValid l (l.cells i) then acc i + l.cells i * l.weight else acc i

/-- The base susceptibility fusion over a list of layers (main.py lines
106-149): first layer initializes, each later layer accumulates, and every
negative cell of the sum is finally forced to -128 (line 149).  With no
layers the sum array stays `None` and line 149 fails, modelled as `none`. -/
def fuseBase : List Layer → Option (Nat → ℚ)
  | [] => none
  | l :: rest =>
      some (fun i =>
        let s := (List.foldl fuseStep (fuseFirst l) rest) i
        if s < 0 then -128 else s)

/-- Total contribution of the later layers at cell `i`: `value * weight`
summed over the layers that are valid there. -/
def laterContrib (rest : List Layer) (i : Nat) : ℚ :=
  (rest.map (fun l => if layerValid l (l.cells i) then l.cells i * l.weight else 0)).sum

/-- First layer of the C2 counterexample: its only cell holds its own
nodata value. -/
def layerA : Layer := { cells := fun _ => 0, nodata := some 0, weight := 1/2 }

/-- Second layer of the C2 counterexample: valid cell of value 1000. -/
def layerB : Layer := { cells := fun _ => 1000, nodata := some (-128), weight := 1/2 }

/-- Per-cell `result` value computed by
`create_final_landslide_susceptibility_map` before the final clamp
(functions.py lines 386-407): the base cell is masked to -128 when it is
at most 0 (the mask writes through to the array used in the sum, since
`basemap_masked` aliases `basemap_array`), the rainfall cells are masked
to -128 when negative, and the three step products are added to the masked
base. -/
def rainfallResultCell (scaling basemap recorded forecast rw fw : ℚ) : ℚ :=
  let basemap_masked := if basemap ≤ 0 then (-128 : ℚ) else basemap
  let recorded_masked := if recorded < 0 then (-128 : ℚ) else recorded
  let forecast_masked := if forecast < 0 then (-128 : ℚ) else forecast
  let step1 := scaling / basemap_masked
  let step2 := step1 * recorded_masked * rw
  let step3 := step1 * forecast_masked * fw
  basemap_masked + step2 + step3

/-- Final per-cell value of the rainfall-adjusted fusion: the `result`
value with negatives forced to -128 (functions.py line 409). -/
def rainfallFusionCell (scaling basemap recorded forecast rw fw : ℚ) : ℚ :=
  let result := rainfallResultCell scaling basemap recorded forecast rw fw
  if result < 0 then -128 else result

/-- `create_final_landslide_susceptibility_map` (functions.py lines
368-438).  The global minimum and maximum of the base map are statistics
delegated to the raster engine (`ComputeRasterMinMax`), so they enter the
model as inputs; the scaling factor is their difference (line 379). -/
def create_final_landslide_susceptibility_map (bmin bmax : ℚ)
    (basemap recorded forecast : Nat → ℚ) (rw fw : ℚ) : Nat → ℚ :=
  fun i => rainfallFusionCell (bmax - bmin) (basemap i) (recorded i) (forecast i) rw fw

/-- Python `round` on a rational: nearest integer, ties to even. -/
def pyRound (q : ℚ) : Int :=
  let f := ⌊q⌋
  let r := q - (f : ℚ)
  if r < 1/2 then f
  else if 1/2 < r then f + 1
  else if Int.emod f 2 = 0 then f else f + 1

/-- The ten per-factor overlay weights (constants.py lines 153-164). -/
structure FinalWeights where
  slope : ℚ
  curvature : ℚ
  lulc : ℚ
  ndvi : ℚ
  aspect : ℚ
  river : ℚ
  road : ℚ
  fault : ℚ
  soil : ℚ
  geology : ℚ

/-- The list of weights the validation inspects (constants.py lines
167-176): slope, curvature, lulc, ndvi, aspect, river, road, soil,
geology - the fault weight is not in the list. -/
def FinalWeights.checkedWeights (w : FinalWeights) : List ℚ :=
  [w.slope, w.curvature, w.lulc, w.ndvi, w.aspect, w.river, w.road, w.soil,
   w.geology]

/-- All ten weights of the table. -/
def FinalWeights.allWeights (w : FinalWeights) : List ℚ :=
  [w.slope, w.curvature, w.lulc, w.ndvi, w.aspect, w.river, w.road, w.fault,
   w.soil, w.geology]

/-- The validation in `FinalWeights.__post_init__` (constants.py lines
166-187): raise when some inspected weight is zero, else raise when the
rounded sum of the inspected weights is not 1, else accept. -/
def FinalWeights.postInit (w : FinalWeights) : Except String Unit :=
  if w.checkedWeights.any (fun x => x == 0) then
    Except.error "All weights must be non-zero."
  else if pyRound w.checkedWeights.sum ≠ 1 then
    Except.error "Ensure that the sum of all weights is 1."
  else Except.ok ()

/-- The default weight values of constants.py lines 155-164. -/
def finalWeightsDefault : FinalWeights :=
  { slope := 0.15, curvature := 0.08, lulc := 0.09, ndvi := 0.08,
    aspect := 0.09, river := 0.07, road := 0.09, fault := 0.13, soil := 0.1,
    geology := 0.12 }

/-- A weight table whose ten weights are all non-zero and sum to 0.80
(the inspected nine sum to 0.67). -/
def weights080 : FinalWeights :=
  { finalWeightsDefault with slope := 0.05, curvature := 0.03, road := 0.04 }

/-- The default weight table with the fault weight set to zero. -/
def weightsFaultZero : FinalWeights :=
  { finalWeightsDefault with fault := 0 }

/-- The default weight table with the fault weight set to 1.13, making
the ten weights sum to 2. -/
def weightsFaultLarge : FinalWeights :=
  { finalWeightsDefault with fault := 1.13 }

/-- The default weight table with the slope weight set to zero. -/
def weightsSlopeZero : FinalWeights :=
  { finalWeightsDefault with slope := 0 }

/-- The default weight table with the slope weight lowered to 0.08, so
that the nine inspected weights sum to 0.80. -/
def weightsChecked080 : FinalWeights :=
  { finalWeightsDefault with slope := 0.08 }

/-- ClassificationParameters (constants.py lines 14-81) is a frozen
dataclass that only declares the rule tuples; it has no post-construction
hook, so instantiating it performs no validation of the rule bounds and
always succeeds. -/
def classificationParametersPostInit (_ : List (List Rule)) : Except String Unit :=
  Except.ok ()

/-- A malformed spec: a bounded rule whose lower bound 20 is not below its
upper bound 10. -/
def rules9 : List Rule := [Rule.bounded 20 10 1]

/-- The output artifacts the orchestrator (main.py) checks or writes, by
filesystem path. -/
inductive ArtifactPath where
  | classified (i : Nat)
  | baseMap
  | recordedRainfall
  | forecastRaster (day : Nat)
  | finalMap (day : Nat)
deriving DecidableEq

/-- One call into the geospatial raster engine collaborator, at stage
granularity. -/
inductive EngineCall where
  | constantsPipeline (i : Nat)
  | baseMapFusion
  | recordedRainfallPipeline
  | forecastPipeline (day : Nat)
  | finalMapCreation (day : Nat)
deriving DecidableEq

/-- Orchestrator state: the collaborator calls performed so far and which
artifact files exist. -/
abbrev OrchState := List EngineCall × (ArtifactPath → Bool)

/-- Mark the file at an artifact path as existing. -/
def setExists (fs : ArtifactPath → Bool) (p : ArtifactPath) : ArtifactPath → Bool :=
  fun q => if q = p then true else fs q

/-- A cache-checked stage: when the file at the output path exists the
stage is skipped, otherwise the collaborator is called and the file is
created (main.py lines 85-95, 102-104, 198-208). -/
def runCachedStage (p : ArtifactPath) (c : EngineCall) (st : OrchState) : OrchState :=
  if st.2 p then st else (st.1 ++ [c], setExists st.2 p)

/-- An unconditional stage: the collaborator is always called and the
output file is (re)written, with no existence check (main.py lines
229-240 and 252-262). -/
def runUncachedStage (p : ArtifactPath) (c : EngineCall) (st : OrchState) : OrchState :=
  (st.1 ++ [c], setExists st.2 p)

/-- The module-level control flow of main.py: the weight table is
validated while the dataclasses are instantiated (line 66), before any
raster stage; then the classified constant rasters (lines 85-95), the
base map (lines 102-174) and the recorded rainfall raster (lines 198-208)
are computed only when their output file is missing; with
`FLAG_UPDATE_FORECAST_RASTERS = 1` (its hardcoded value, line 76) every
forecast raster and every final map is recomputed unconditionally (lines
219-240 and 252-262); with flag 0 the forecast list stays empty and the
program exits before creating final maps; any other flag value exits
immediately. -/
def orchestrate (w : FinalWeights) (flag : Nat) (factors days : List Nat)
    (fs : ArtifactPath → Bool) : Except String OrchState :=
  match FinalWeights.postInit w with
  | .error e => .error e
  | .ok _ =>
      let st1 := List.foldl
        (fun st i =>
          runCachedStage (ArtifactPath.classified i) (EngineCall.constantsPipeline i) st)
        ([], fs) factors
      let st2 := runCachedStage ArtifactPath.baseMap EngineCall.baseMapFusion st1
      let st3 := runCachedStage ArtifactPath.recordedRainfall
        EngineCall.recordedRainfallPipeline st2
      if flag = 0 then Except.ok st3
      else if flag = 1 then
        let st4 := List.foldl
          (fun st d =>
            runUncachedStage (ArtifactPath.forecastRaster d) (EngineCall.forecastPipeline d) st)
          st3 days
        let st5 := List.foldl
          (fun st d =>
            runUncachedStage (ArtifactPath.finalMap d) (EngineCall.finalMapCreation d) st)
          st4 days
        Except.ok st5
      else Except.error "ki 0 ki 1."

/-- The collaborator calls a run performed (none when the run aborted at
configuration time). -/
def callsOf : Except String OrchState → List EngineCall
  | .ok st => st.1
  | .error _ => []

theorem applyRule_eq_of_ne (nd v : ℚ) (hv : v ≠ nd) (acc : Int) (r : Rule) :
    applyRule nd v acc r = if specMatches v r then r.classCode else acc := by
  cases r <;> simp [applyRule, specMatches, Rule.classCode, hv]

theorem specLastMatchingCode_append_singleton (v : ℚ) (l : List Rule) (r : Rule) :
    specLastMatchingCode (l ++ [r]) v
      = if specMatches v r then some r.classCode else specLastMatchingCode l v := by
  unfold specLastMatchingCode
  rw [List.foldl_append, List.foldl_cons, List.foldl_nil]

theorem foldl_applyRule_eq (nd v : ℚ) (hv : v ≠ nd) (rules : List Rule) (acc : Int) :
    List.foldl (applyRule nd v) acc rules
      = match specLastMatchingCode rules v with
        | some c => c
        | none => acc := by
  induction rules using List.reverseRecOn with
  | nil => rfl
  | append_singleton l r ih =>
      rw [List.foldl_append, List.foldl_cons, List.foldl_nil,
        applyRule_eq_of_ne nd v hv, specLastMatchingCode_append_singleton]
      by_cases h : specMatches v r
      · simp [h]
      · simp [h, ih]

/-- C1: for a cell whose value is not the input nodata value, the
classified output cell equals the class code of the last rule in declared
order whose interval contains the value, with unbounded-low matching
`v < high`, unbounded-high matching `low <= v`, and bounded matching
`low <= v < high`. -/
theorem classify_last_matching_rule_wins (r : Raster) (rules : List Rule)
    (i : Nat) (c : Int)
    (hnd : r.cells i ≠ effNodata r)
    (hlast : specLastMatchingCode rules (r.cells i) = some c) :
    (classify_raster r (some rules)).cells i = (c : ℚ) := by
  simp only [classify_raster]
  rw [classifyCell, foldl_applyRule_eq _ _ hnd, hlast]
  simp [hnd]

/-- Witness for C1: value 35 against the slope spec, whose last (and only)
matching rule is `(30, 60, 10)`. -/
theorem classify_last_matching_rule_wins_witness :
    r1c.cells 0 ≠ effNodata r1c
      ∧ specLastMatchingCode slopeRules (r1c.cells 0) = some 10
      ∧ (classify_raster r1c (some slopeRules)).cells 0 = (10 : ℚ) :=
  ⟨by decide, by decide,
    classify_last_matching_rule_wins r1c slopeRules 0 10 (by decide) (by decide)⟩

/-- C4: a cell whose input value equals the input nodata value is -128 in
the classified output, regardless of rule coverage. -/
theorem classify_nodata_always_nodata (r : Raster) (rules : List Rule) (i : Nat)
    (h : r.cells i = effNodata r) :
    (classify_raster r (some rules)).cells i = (-128 : ℚ) := by
  simp [classify_raster, classifyCell, h]

/-- Witness for C4: the nodata value -9999 stays nodata under the slope
spec even though its rule `(None, 15, 1)` would nominally not cover it and
no bounded rule covers it either. -/
theorem classify_nodata_always_nodata_witness :
    r4c.cells 0 = effNodata r4c
      ∧ (classify_raster r4c (some slopeRules)).cells 0 = (-128 : ℚ) :=
  ⟨by decide, classify_nodata_always_nodata r4c slopeRules 0 (by decide)⟩

/-- C6 counterexample: input nodata 0, cell value 5, spec `[(10, 20, 1)]`.
The value 5 is valid data and matches no rule, yet the output cell is 0
(the int8 cast of the input nodata fill), not the output nodata sentinel
-128. -/
theorem classify_unmatched_cell_not_output_sentinel :
    r6c.cells 0 ≠ effNodata r6c
      ∧ specLastMatchingCode rules6 (r6c.cells 0) = none
      ∧ (classify_raster r6c (some rules6)).cells 0 = (0 : ℚ)
      ∧ (0 : ℚ) ≠ (-128 : ℚ) := by
  refine ⟨by decide, by decide, by decide, by norm_num⟩

/-- C6 amended: a cell whose value is not the input nodata value and
matches no rule keeps the initial fill value, which is the input nodata
value cast to int8 - this equals the output sentinel -128 exactly when
that cast is -128 (for instance when the input declares no nodata value),
but not in general. -/
theorem classify_unmatched_cell_keeps_initial_fill (r : Raster)
    (rules : List Rule) (i : Nat)
    (h1 : r.cells i ≠ effNodata r)
    (h2 : specLastMatchingCode rules (r.cells i) = none) :
    (classify_raster r (some rules)).cells i
      = ((int8cast (effNodata r) : Int) : ℚ) := by
  simp only [classify_raster]
  rw [classifyCell, foldl_applyRule_eq _ _ h1, h2]
  simp [h1]

/-- Witness for C6 amended: with input nodata 0 the unmatched cell keeps
the fill value `int8cast 0 = 0`. -/
theorem classify_unmatched_cell_keeps_initial_fill_witness :
    r6c.cells 0 ≠ effNodata r6c
      ∧ specLastMatchingCode rules6 (r6c.cells 0) = none
      ∧ (classify_raster r6c (some rules6)).cells 0
          = ((int8cast (effNodata r6c) : Int) : ℚ) :=
  ⟨by decide, by decide,
    classify_unmatched_cell_keeps_initial_fill r6c rules6 0 (by decide) (by decide)⟩

/-- C5 counterexample: pass-through classification does not return an
identical raster - the output band always declares nodata -128 and cell
type int8 (functions.py lines 140-148), and writing the unchanged float
array into that int8 band changes fractional cell values: 23.7 is written
as 24. -/
theorem classify_passthrough_not_identical :
    classify_raster r5c none ≠ r5c
      ∧ (classify_raster r5f none).cells 0 = 24
      ∧ r5f.cells 0 = 23.7
      ∧ (24 : ℚ) ≠ 23.7 := by
  refine ⟨?_, ?_, rfl, by norm_num⟩
  · intro h
    have h2 := congrArg Raster.nodata h
    have h3 : (some (-128 : ℚ)) = some (0 : ℚ) := h2
    simp at h3
  · norm_num [classify_raster, r5f, gdalInt8write, round_eq]

/-- C5 amended: pass-through classification performs no classification
on the array, but the output raster is always created with the int8 cell
type and the nodata sentinel -128, and writing the unchanged array into
that band rounds every cell to the nearest integer and clamps it into
[-128, 127]; the output equals the input only when the input already has
integer cell values in that range, int8 cell type and nodata -128. -/
theorem classify_passthrough_int8_write (r : Raster) :
    (∀ i, (classify_raster r none).cells i = ((gdalInt8write (r.cells i) : Int) : ℚ))
      ∧ (classify_raster r none).nodata = some (-128)
      ∧ (classify_raster r none).ctype = CellType.int8 :=
  ⟨fun _ => rfl, rfl, rfl⟩

/-- C10: non-pass-through classification always produces a raster whose
declared nodata sentinel is -128 and whose cell type is int8, regardless
of the input; and when the input declares no nodata value, -128 is used as
the input nodata for rule matching and for the final nodata masking. -/
theorem classify_output_format_invariant (r : Raster) (rules : List Rule) :
    (classify_raster r (some rules)).nodata = some (-128)
      ∧ (classify_raster r (some rules)).ctype = CellType.int8
      ∧ (r.nodata = none →
          ∀ i, (classify_raster r (some rules)).cells i
            = ((classifyCell rules (-128) (r.cells i) : Int) : ℚ)) := by
  refine ⟨rfl, rfl, fun h i => ?_⟩
  simp [classify_raster, effNodata, h]

/-- Witness for C10: a raster with no declared nodata is classified with
-128 as its effective nodata value. -/
theorem classify_output_format_invariant_witness :
    r10c.nodata = none
      ∧ (classify_raster r10c (some slopeRules)).nodata = some (-128)
      ∧ (classify_raster r10c (some slopeRules)).cells 0
          = ((classifyCell slopeRules (-128) (r10c.cells 0) : Int) : ℚ) :=
  ⟨rfl, (classify_output_format_invariant r10c slopeRules).1,
    (classify_output_format_invariant r10c slopeRules).2.2 rfl 0⟩

theorem foldl_fuseStep_apply (rest : List Layer) (acc : Nat → ℚ) (i : Nat) :
    List.foldl fuseStep acc rest i = acc i + laterContrib rest i := by
  induction rest generalizing acc with
  | nil => simp [laterContrib]
  | cons l rest ih =>
      rw [List.foldl_cons, ih]
      by_cases h : layerValid l (l.cells i)
      · simp [fuseStep, laterContrib, h]
        ring
      · simp [fuseStep, laterContrib, h]

/-- C2 counterexample: the first layer is nodata at the cell, the second
layer is valid there with value 1000 and weight 1/2, and the fused output
at that cell is `-128 + 500 = 372`, a valid (non-nodata) value - the
second layer contributed to a cell the first layer did not validate, and
the cell did not stay nodata. -/
theorem fuse_first_layer_nodata_not_permanent :
    ¬ layerValid layerA (layerA.cells 0) = true
      ∧ (fuseBase [layerA, layerB]).map (fun f => f 0) = some 372
      ∧ (372 : ℚ) ≠ -128 := by
  refine ⟨by decide, ?_, by norm_num⟩
  simp only [fuseBase, Option.map_some']
  norm_num [List.foldl, fuseStep, fuseFirst, layerValid, layerA, layerB]

/-- C2 amended: a cell that is nodata in the first layer starts at the
sentinel -128, and every later layer adds `value * weight` there whenever
that layer itself is valid at the cell - the mask is the current layer's
own validity, not the accumulated one.  After the final negative clamp the
cell is nodata exactly when `-128` plus those later contributions is still
negative; it is not nodata permanently in general. -/
theorem fuse_first_layer_nodata_characterization (l : Layer)
    (rest : List Layer) (i : Nat)
    (h : ¬ layerValid l (l.cells i) = true) :
    (fuseBase (l :: rest)).map (fun f => f i)
      = some (if (-128 : ℚ) + laterContrib rest i < 0 then (-128 : ℚ)
              else -128 + laterContrib rest i) := by
  simp only [fuseBase, Option.map_some']
  rw [foldl_fuseStep_apply]
  simp [fuseFirst, h]

/-- Witness for C2 amended: applied to the two concrete layers, the
characterization yields the valid value 372 at the cell the first layer
did not validate. -/
theorem fuse_first_layer_nodata_characterization_witness :
    ¬ layerValid layerA (layerA.cells 0) = true
      ∧ (fuseBase [layerA, layerB]).map (fun f => f 0)
          = some (if (-128 : ℚ) + laterContrib [layerB] 0 < 0 then (-128 : ℚ)
                  else -128 + laterContrib [layerB] 0) :=
  ⟨by decide, fuse_first_layer_nodata_characterization layerA [layerB] 0 (by decide)⟩

/-- C3: per cell, the rainfall-adjusted fusion computes
`result = base + (sf / base) * recorded * rw + (sf / base) * forecast * fw`
with `sf = globalMax - globalMin` of the base map, after masking base
cells at most 0 and negative rainfall cells to -128 (negative results are
finally clamped to -128); in the literal case base 100, min 0, max 200,
recorded 10 at weight 0.02, forecast 5 at weight 0.1, the result is
101.4. -/
theorem rainfall_fusion_formula_and_literal :
    (∀ (bmin bmax : ℚ) (basemap recorded forecast : Nat → ℚ) (rw fw : ℚ) (i : Nat),
        create_final_landslide_susceptibility_map bmin bmax basemap recorded forecast rw fw i
          = (let sf := bmax - bmin
             let b := if basemap i ≤ 0 then (-128 : ℚ) else basemap i
             let rc := if recorded i < 0 then (-128 : ℚ) else recorded i
             let f := if forecast i < 0 then (-128 : ℚ) else forecast i
             let result := b + sf / b * rc * rw + sf / b * f * fw
             if result < 0 then -128 else result))
      ∧ create_final_landslide_susceptibility_map 0 200
          (fun _ => 100) (fun _ => 10) (fun _ => 5) 0.02 0.1 0 = 101.4 := by
  constructor
  · intro bmin bmax basemap recorded forecast rw fw i
    rfl
  · norm_num [create_final_landslide_susceptibility_map, rainfallFusionCell,
      rainfallResultCell]

theorem postInit_finalWeightsDefault :
    FinalWeights.postInit finalWeightsDefault = Except.ok () := by
  norm_num [FinalWeights.postInit, FinalWeights.checkedWeights,
    finalWeightsDefault, pyRound]

/-- C7 counterexample: the validation accepts a table whose ten weights
are all non-zero and sum to 0.80 (the claim says a 0.80 sum is rejected),
accepts a table whose fault weight is zero (the claim says any zero weight
is rejected), and accepts a table whose ten weights sum to 2 (the claim
says a sum not rounding to 1 is rejected) - the fault weight is simply
never inspected, and 0.80 rounds to 1 anyway. -/
theorem final_weights_validation_gaps :
    FinalWeights.postInit weights080 = Except.ok ()
      ∧ weights080.allWeights.sum = 0.80
      ∧ (∀ x ∈ weights080.allWeights, x ≠ 0)
      ∧ FinalWeights.postInit weightsFaultZero = Except.ok ()
      ∧ weightsFaultZero.fault = 0
      ∧ FinalWeights.postInit weightsFaultLarge = Except.ok ()
      ∧ weightsFaultLarge.allWeights.sum = 2
      ∧ pyRound 2 ≠ 1
      ∧ FinalWeights.postInit weightsChecked080 = Except.ok ()
      ∧ weightsChecked080.checkedWeights.sum = 0.80 := by
  refine ⟨?_, ?_, ?_, ?_, rfl, ?_, ?_, ?_, ?_, ?_⟩
  · norm_num [FinalWeights.postInit, FinalWeights.checkedWeights, weights080,
      finalWeightsDefault, pyRound]
  · norm_num [FinalWeights.allWeights, weights080, finalWeightsDefault]
  · intro x hx
    fin_cases hx <;> norm_num [weights080, finalWeightsDefault]
  · norm_num [FinalWeights.postInit, FinalWeights.checkedWeights,
      weightsFaultZero, finalWeightsDefault, pyRound]
  · norm_num [FinalWeights.postInit, FinalWeights.checkedWeights,
      weightsFaultLarge, finalWeightsDefault, pyRound]
  · norm_num [FinalWeights.allWeights, weightsFaultLarge, finalWeightsDefault]
  · norm_num [pyRound]
  · norm_num [FinalWeights.postInit, FinalWeights.checkedWeights,
      weightsChecked080, finalWeightsDefault, pyRound]
  · norm_num [FinalWeights.checkedWeights, weightsChecked080, finalWeightsDefault]

/-- C7 amended: the validation runs at dataclass construction, before any
raster stage, but inspects only nine of the ten weights - fault is
omitted: it accepts exactly when none of those nine is zero and their sum
rounds (half-to-even) to 1; a sum of 0.97 is accepted and a sum of 0.80
is also accepted, since round(0.8) = 1; when it rejects, the whole run
aborts with the error before any collaborator call. -/
theorem final_weights_validation_characterization :
    (∀ w : FinalWeights,
        FinalWeights.postInit w = Except.ok ()
          ↔ ((∀ x ∈ w.checkedWeights, x ≠ 0) ∧ pyRound w.checkedWeights.sum = 1))
      ∧ (∀ (w : FinalWeights) (e : String) (flag : Nat) (factors days : List Nat)
          (fs : ArtifactPath → Bool),
          FinalWeights.postInit w = Except.error e →
            orchestrate w flag factors days fs = Except.error e) := by
  constructor
  · intro w
    unfold FinalWeights.postInit
    split_ifs with h1 h2
    · constructor
      · intro h; exact absurd h (by simp)
      · rintro ⟨hz, -⟩
        rw [List.any_eq_true] at h1
        obtain ⟨x, hx, hx0⟩ := h1
        exact absurd (by simpa using hx0) (hz x hx)
    · constructor
      · intro h; exact absurd h (by simp)
      · rintro ⟨-, hr⟩
        exact absurd hr h2
    · have hz : ∀ x ∈ w.checkedWeights, x ≠ 0 := by
        intro x hx hx0
        exact h1 (List.any_eq_true.mpr ⟨x, hx, by simpa using hx0⟩)
      have hr : pyRound w.checkedWeights.sum = 1 := not_ne_iff.mp h2
      exact ⟨fun _ => ⟨hz, hr⟩, fun _ => rfl⟩
  · intro w e flag factors days fs h
    unfold orchestrate
    rw [h]

/-- Witness for C7 amended: a zero slope weight is rejected with the
configuration error and the orchestrator aborts before any collaborator
call. -/
theorem final_weights_validation_characterization_witness :
    FinalWeights.postInit weightsSlopeZero
        = Except.error "All weights must be non-zero."
      ∧ orchestrate weightsSlopeZero 1 [] [] (fun _ => false)
        = Except.error "All weights must be non-zero." := by
  have h : FinalWeights.postInit weightsSlopeZero
      = Except.error "All weights must be non-zero." := by
    simp [FinalWeights.postInit, FinalWeights.checkedWeights, weightsSlopeZero,
      finalWeightsDefault]
  exact ⟨h,
    final_weights_validation_characterization.2 weightsSlopeZero
      "All weights must be non-zero." 1 [] [] (fun _ => false) h⟩

theorem runCachedStage_skip (p : ArtifactPath) (c : EngineCall) (st : OrchState)
    (h : st.2 p = true) : runCachedStage p c st = st := by
  simp [runCachedStage, h]

theorem foldl_cached_skip (pf : Nat → ArtifactPath) (cf : Nat → EngineCall)
    (l : List Nat) (st : OrchState) (h : ∀ p, st.2 p = true) :
    List.foldl (fun st i => runCachedStage (pf i) (cf i) st) st l = st := by
  induction l with
  | nil => rfl
  | cons a l ih => rw [List.foldl_cons, runCachedStage_skip _ _ _ (h _)]; exact ih

theorem foldl_uncached_fst (pf : Nat → ArtifactPath) (cf : Nat → EngineCall)
    (l : List Nat) (st : OrchState) :
    (List.foldl (fun st d => runUncachedStage (pf d) (cf d) st) st l).1
      = st.1 ++ l.map cf := by
  induction l generalizing st with
  | nil => simp
  | cons a l ih => rw [List.foldl_cons, ih]; simp [runUncachedStage]

/-- C8 counterexample: a second run with the default configuration, flag
value 1 as hardcoded, and every output file already present still
performs the forecast-raster and final-map collaborator calls - not zero
calls, because those two stages never check for existing files. -/
theorem orchestrator_second_run_not_call_free :
    callsOf (orchestrate finalWeightsDefault 1 [0] [1] (fun _ => true))
        = [EngineCall.forecastPipeline 1, EngineCall.finalMapCreation 1]
      ∧ [EngineCall.forecastPipeline 1, EngineCall.finalMapCreation 1]
          ≠ ([] : List EngineCall) := by
  refine ⟨?_, by simp⟩
  simp only [orchestrate, postInit_finalWeightsDefault]
  norm_num [runCachedStage, runUncachedStage, callsOf]

/-- C8 amended: the classified-raster, base-map and recorded-rainfall
stages do skip computation when the file at their output path exists, but
with the hardcoded forecast-update flag 1 the forecast rasters and the
final maps are recomputed on every run with no existence check, so a
second run with all outputs present performs exactly those collaborator
calls again instead of zero. -/
theorem orchestrator_second_run_calls (w : FinalWeights)
    (factors days : List Nat) (fs : ArtifactPath → Bool)
    (hw : FinalWeights.postInit w = Except.ok ())
    (hfs : ∀ p, fs p = true) :
    callsOf (orchestrate w 1 factors days fs)
      = days.map EngineCall.forecastPipeline
          ++ days.map EngineCall.finalMapCreation := by
  simp only [orchestrate, hw]
  rw [foldl_cached_skip _ _ factors ([], fs) hfs,
    runCachedStage_skip ArtifactPath.baseMap EngineCall.baseMapFusion ([], fs) (hfs _),
    runCachedStage_skip ArtifactPath.recordedRainfall
      EngineCall.recordedRainfallPipeline ([], fs) (hfs _)]
  norm_num [callsOf, foldl_uncached_fst]

/-- Witness for C8 amended: with the default weights, one cached factor,
one forecast day and every file present, the second run performs exactly
the forecast and final-map calls. -/
theorem orchestrator_second_run_calls_witness :
    callsOf (orchestrate finalWeightsDefault 1 [0] [1] (fun _ => true))
      = [1].map EngineCall.forecastPipeline ++ [1].map EngineCall.finalMapCreation :=
  orchestrator_second_run_calls finalWeightsDefault [0] [1] (fun _ => true)
    postInit_finalWeightsDefault (fun _ => rfl)

/-- C9 counterexample: the spec `[(20, 10, 1)]` with a bounded rule whose
lower bound exceeds its upper bound is accepted at configuration time (the
dataclass performs no validation), and `classify_raster` then runs
per-cell work with it - the valid cell value 15 simply matches nothing
and keeps the -128 fill. -/
theorem malformed_bounds_not_rejected :
    classificationParametersPostInit [rules9] = Except.ok ()
      ∧ (classify_raster r9c (some rules9)).cells 0 = (-128 : ℚ) := by
  exact ⟨rfl, by decide⟩

/-- C9 amended: no configuration-time validation of classification bounds
exists - instantiating the parameters dataclass always succeeds, and
during classification a bounded rule with lowerBound >= upperBound is
silently inert: it matches no cell value. -/
theorem malformed_bounds_never_validated_inert :
    (∀ specs : List (List Rule), classificationParametersPostInit specs = Except.ok ())
      ∧ (∀ (nd v : ℚ) (acc : Int) (low high : ℚ) (c : Int), high ≤ low →
          applyRule nd v acc (Rule.bounded low high c) = acc) := by
  refine ⟨fun _ => rfl, fun nd v acc low high c hlh => ?_⟩
  rw [applyRule, if_neg]
  rintro ⟨h1, h2⟩
  exact absurd (h2.trans_le (hlh.trans h1)) (lt_irrefl v)

/-- Witness for C9 amended: the malformed spec is accepted and its rule
leaves the accumulator value 7 unchanged at cell value 15. -/
theorem malformed_bounds_never_validated_inert_witness :
    classificationParametersPostInit [rules9] = Except.ok ()
      ∧ applyRule 0 15 7 (Rule.bounded 20 10 1) = 7 :=
  ⟨malformed_bounds_never_validated_inert.1 [rules9],
    malformed_bounds_never_validated_inert.2 0 15 7 20 10 1 (by norm_num)⟩

end NepalLSM
